import Mathlib

/-!
Verification of the property-analysis core of the Contractorv3 repository.

Embedding conventions:
* Python `float` values are modelled as exact rationals (`ℚ`); the spec and the
  claims state exact arithmetic identities, so the idealised real-number
  semantics of the formulas is the object of proof.
* Python `int` values are modelled as `ℤ`.
* Python's `/` on floats raises `ZeroDivisionError` when the denominator is
  zero; every division of the source whose denominator is not a nonzero
  literal is modelled by the checked division `qdiv?`, and the fallible
  computation returns `Option`, `none` standing for the raised exception.
  Divisions by the literal constants `100` and `12` can never raise and are
  modelled by plain field division.
* `math.pow` applied to an integer exponent is modelled by `zpow`.  (The one
  divergence — `math.pow 0 n` raises for negative `n` while `zpow` yields 0 —
  lies outside every claim's domain: term and holding years are positive
  there.)
* `datetime.now()` is an ambient-state read; the analyzer is therefore
  modelled with an explicit `now : DateTime` argument recording the clock
  value observed by the invocation.
-/

/-- A naive Python `datetime.datetime` value, field by field. -/
structure DateTime where
  year : ℕ
  month : ℕ
  day : ℕ
  hour : ℕ
  minute : ℕ
  second : ℕ
  microsecond : ℕ
deriving DecidableEq

/-- The field invariants Python's `datetime` constructor enforces
(`MINYEAR = 1`, `MAXYEAR = 9999`, and the usual clock ranges). -/
def DateTime.valid (d : DateTime) : Prop :=
  1 ≤ d.year ∧ d.year ≤ 9999 ∧ 1 ≤ d.month ∧ d.month ≤ 12 ∧
  1 ≤ d.day ∧ d.day ≤ 31 ∧ d.hour ≤ 23 ∧ d.minute ≤ 59 ∧
  d.second ≤ 59 ∧ d.microsecond ≤ 999999

instance (d : DateTime) : Decidable d.valid := by
  unfold DateTime.valid
  infer_instance

/-- Checked division: Python float `/`, which raises `ZeroDivisionError`
(modelled as `none`) when the denominator is zero. -/
def qdiv? (x y : ℚ) : Option ℚ :=
  if y = 0 then none else some (x / y)

/-- `src/src/models/property.py`, dataclass `Property`. -/
structure Property where
  address : String
  city : String
  state : String
  zip_code : String
  purchase_price : ℚ
  property_type : String
  bedrooms : ℤ
  bathrooms : ℚ
  square_feet : ℤ
  year_built : ℤ
  lot_size : Option ℚ := none
  listing_url : Option String := none
  mls_number : Option String := none
  property_id : Option String := none
  created_at : Option DateTime := none
  updated_at : Option DateTime := none
deriving DecidableEq

/-- `src/src/models/property.py`, dataclass `FinancialAssumptions`,
with the source's defaults. -/
structure FinancialAssumptions where
  down_payment_percentage : ℚ := 20
  interest_rate : ℚ := 7
  loan_term_years : ℤ := 30
  closing_costs_percentage : ℚ := 3
  monthly_rent : ℚ := 0
  vacancy_rate : ℚ := 5
  other_monthly_income : ℚ := 0
  property_tax_annual : ℚ := 0
  insurance_annual : ℚ := 0
  hoa_monthly : ℚ := 0
  maintenance_percentage : ℚ := 10
  property_management_percentage : ℚ := 10
  utilities_monthly : ℚ := 0
  appreciation_rate : ℚ := 3
  holding_period_years : ℤ := 5
deriving DecidableEq

/-- `src/src/models/property.py`, dataclass `PropertyAnalysis`. -/
structure PropertyAnalysis where
  property_id : String
  analysis_date : DateTime
  purchase_price : ℚ
  down_payment : ℚ
  loan_amount : ℚ
  closing_costs : ℚ
  total_cash_needed : ℚ
  monthly_rental_income : ℚ
  monthly_expenses : ℚ
  monthly_mortgage_payment : ℚ
  monthly_cash_flow : ℚ
  annual_cash_flow : ℚ
  annual_roi : ℚ
  cash_on_cash_return : ℚ
  cap_rate : ℚ
  total_profit : ℚ
  total_equity : ℚ
  irr : Option ℚ := none
  analysis_id : Option String := none
  created_at : Option DateTime := none
deriving DecidableEq

/-- `src/src/services/property_analyzer.py`,
`PropertyAnalyzerService.calculate_mortgage_payment`. -/
def calculate_mortgage_payment (loan_amount annual_rate : ℚ) (years : ℤ) :
    Option ℚ :=
  if annual_rate = 0 then
    qdiv? loan_amount ((years : ℚ) * 12)
  else
    let monthly_rate := annual_rate / 100 / 12
    let num_payments := years * 12
    qdiv? (loan_amount * (monthly_rate * (1 + monthly_rate) ^ num_payments))
      ((1 + monthly_rate) ^ num_payments - 1)

/-- `src/src/services/property_analyzer.py`,
`PropertyAnalyzerService.calculate_property_analysis`.
`now` is the value `datetime.now()` returns during the invocation. -/
def calculate_property_analysis (now : DateTime) (property_data : Property)
    (assumptions : FinancialAssumptions) : Option PropertyAnalysis :=
  let purchase_price := property_data.purchase_price
  let down_payment := purchase_price * (assumptions.down_payment_percentage / 100)
  let loan_amount := purchase_price - down_payment
  let closing_costs := purchase_price * (assumptions.closing_costs_percentage / 100)
  let total_cash_needed := down_payment + closing_costs
  match calculate_mortgage_payment loan_amount
    assumptions.interest_rate assumptions.loan_term_years with
  | none => none
  | some monthly_mortgage =>
  let gross_monthly_rent := assumptions.monthly_rent
  let vacancy_loss := gross_monthly_rent * (assumptions.vacancy_rate / 100)
  let monthly_rental_income := gross_monthly_rent - vacancy_loss +
    assumptions.other_monthly_income
  let monthly_property_tax := assumptions.property_tax_annual / 12
  let monthly_insurance := assumptions.insurance_annual / 12
  let monthly_maintenance := gross_monthly_rent * (assumptions.maintenance_percentage / 100)
  let monthly_property_management := gross_monthly_rent *
    (assumptions.property_management_percentage / 100)
  let monthly_expenses := monthly_property_tax + monthly_insurance +
    assumptions.hoa_monthly + monthly_maintenance + monthly_property_management +
    assumptions.utilities_monthly
  let monthly_cash_flow := monthly_rental_income - monthly_expenses - monthly_mortgage
  let annual_cash_flow := monthly_cash_flow * 12
  let annual_noi := (monthly_rental_income - monthly_expenses) * 12
  let cash_on_cash_return :=
    if total_cash_needed > 0 then annual_cash_flow / total_cash_needed * 100 else 0
  let cap_rate := if purchase_price > 0 then annual_noi / purchase_price * 100 else 0
  let annual_roi :=
    if total_cash_needed > 0 then annual_cash_flow / total_cash_needed * 100 else 0
  let holding_years := assumptions.holding_period_years
  let appreciation_rate := assumptions.appreciation_rate / 100
  let future_value := purchase_price * (1 + appreciation_rate) ^ holding_years
  match qdiv? (monthly_mortgage * 12) loan_amount with
  | none => none
  | some amort_fraction =>
  let principal_paid := loan_amount - loan_amount * (1 - amort_fraction) ^ holding_years
  let total_equity := down_payment + principal_paid + (future_value - purchase_price)
  let total_profit := annual_cash_flow * (holding_years : ℚ) + total_equity - total_cash_needed
  some {
    property_id := property_data.property_id.getD (String.mk [])
    analysis_date := now
    purchase_price := purchase_price
    down_payment := down_payment
    loan_amount := loan_amount
    closing_costs := closing_costs
    total_cash_needed := total_cash_needed
    monthly_rental_income := monthly_rental_income
    monthly_expenses := monthly_expenses
    monthly_mortgage_payment := monthly_mortgage
    monthly_cash_flow := monthly_cash_flow
    annual_cash_flow := annual_cash_flow
    annual_roi := annual_roi
    cash_on_cash_return := cash_on_cash_return
    cap_rate := cap_rate
    total_profit := total_profit
    total_equity := total_equity }

/-! ### Helper definitions and lemmas about the analysis pipeline -/

/-- The `loan_amount` intermediate of `calculate_property_analysis`,
as the source computes it. -/
def analysisLoanAmount (p : Property) (fa : FinancialAssumptions) : ℚ :=
  p.purchase_price - p.purchase_price * (fa.down_payment_percentage / 100)

/-- The record `calculate_property_analysis` builds, as a pure function of the
clock value, the inputs and the (already computed) monthly mortgage payment
`m`, valid when `analysisLoanAmount p fa ≠ 0` so that the checked equity
division agrees with total field division. -/
def analysisResult (now : DateTime) (p : Property) (fa : FinancialAssumptions)
    (m : ℚ) : PropertyAnalysis :=
  let purchase_price := p.purchase_price
  let down_payment := purchase_price * (fa.down_payment_percentage / 100)
  let loan_amount := purchase_price - down_payment
  let closing_costs := purchase_price * (fa.closing_costs_percentage / 100)
  let total_cash_needed := down_payment + closing_costs
  let gross_monthly_rent := fa.monthly_rent
  let vacancy_loss := gross_monthly_rent * (fa.vacancy_rate / 100)
  let monthly_rental_income := gross_monthly_rent - vacancy_loss + fa.other_monthly_income
  let monthly_expenses := fa.property_tax_annual / 12 + fa.insurance_annual / 12 +
    fa.hoa_monthly + gross_monthly_rent * (fa.maintenance_percentage / 100) +
    gross_monthly_rent * (fa.property_management_percentage / 100) + fa.utilities_monthly
  let monthly_cash_flow := monthly_rental_income - monthly_expenses - m
  let annual_cash_flow := monthly_cash_flow * 12
  let annual_noi := (monthly_rental_income - monthly_expenses) * 12
  let cash_on_cash_return :=
    if total_cash_needed > 0 then annual_cash_flow / total_cash_needed * 100 else 0
  let cap_rate := if purchase_price > 0 then annual_noi / purchase_price * 100 else 0
  let annual_roi :=
    if total_cash_needed > 0 then annual_cash_flow / total_cash_needed * 100 else 0
  let holding_years := fa.holding_period_years
  let future_value := purchase_price * (1 + fa.appreciation_rate / 100) ^ holding_years
  let principal_paid := loan_amount -
    loan_amount * (1 - m * 12 / loan_amount) ^ holding_years
  let total_equity := down_payment + principal_paid + (future_value - purchase_price)
  let total_profit := annual_cash_flow * (holding_years : ℚ) + total_equity - total_cash_needed
  { property_id := p.property_id.getD (String.mk [])
    analysis_date := now
    purchase_price := purchase_price
    down_payment := down_payment
    loan_amount := loan_amount
    closing_costs := closing_costs
    total_cash_needed := total_cash_needed
    monthly_rental_income := monthly_rental_income
    monthly_expenses := monthly_expenses
    monthly_mortgage_payment := m
    monthly_cash_flow := monthly_cash_flow
    annual_cash_flow := annual_cash_flow
    annual_roi := annual_roi
    cash_on_cash_return := cash_on_cash_return
    cap_rate := cap_rate
    total_profit := total_profit
    total_equity := total_equity }

/-- The same analysis with `analysis_date` overwritten by a fixed value; used
to state that every other field is independent of the clock. -/
def eraseAnalysisDate (a : PropertyAnalysis) : PropertyAnalysis :=
  { a with analysis_date := ⟨1, 1, 1, 0, 0, 0, 0⟩ }

/-! ### Report formatting (`generate_analysis_report`) -/

/-- Round to the nearest integer, ties to the even one — the rounding Python's
`format(x, '.2f')` applies to the (here idealised as exact) value `x × 100`. -/
def halfEven (x : ℚ) : ℤ :=
  let f := ⌊x⌋
  let frac := x - f
  if frac < 1 / 2 then f
  else if 1 / 2 < frac then f + 1
  else if f % 2 = 0 then f else f + 1

/-- Decimal digit characters of a natural number, most significant first. -/
def natDigits (n : ℕ) : List Char :=
  Nat.toDigits 10 n

/-- Insert a comma after every third character of a reversed digit list. -/
def groupRev : List Char → List Char
  | a :: b :: c :: d :: rest => a :: b :: c :: ',' :: groupRev (d :: rest)
  | l => l

/-- Python's `,` format option: thousands separators, grouping from the right. -/
def groupThousands (ds : List Char) : List Char :=
  (groupRev ds.reverse).reverse

/-- The two fractional digits of a cent count `r < 100`. -/
def twoFrac (r : ℕ) : List Char :=
  [Nat.digitChar (r / 10), Nat.digitChar (r % 10)]

/-- Python `f'${v:,.2f}'`: currency symbol, sign, thousands-grouped integer
part, decimal point, exactly two fractional digits. -/
def formatCurrency (q : ℚ) : String :=
  let n := (halfEven (q * 100)).natAbs
  ⟨'$' :: ((if q < 0 then ['-'] else []) ++ groupThousands (natDigits (n / 100)) ++
    '.' :: twoFrac (n % 100))⟩

/-- Python `f'{v:.2f}%'`: sign, integer part, decimal point, exactly two
fractional digits, percent sign. -/
def formatRate (q : ℚ) : String :=
  let n := (halfEven (q * 100)).natAbs
  ⟨((if q < 0 then ['-'] else []) ++ natDigits (n / 100) ++ '.' :: twoFrac (n % 100)) ++
    ['%']⟩

/-- The `summary` section of the report dictionary. -/
structure ReportSummary where
  purchase_price : String
  total_cash_needed : String
  monthly_cash_flow : String
  annual_cash_flow : String
deriving DecidableEq

/-- The `returns` section of the report dictionary. -/
structure ReportReturns where
  cash_on_cash_return : String
  cap_rate : String
  annual_roi : String
deriving DecidableEq

/-- The `purchase_breakdown` section of the report dictionary. -/
structure ReportPurchaseBreakdown where
  purchase_price : String
  down_payment : String
  loan_amount : String
  closing_costs : String
deriving DecidableEq

/-- The `monthly_breakdown` section of the report dictionary. -/
structure ReportMonthlyBreakdown where
  rental_income : String
  expenses : String
  mortgage_payment : String
  net_cash_flow : String
deriving DecidableEq

/-- The `long_term` section of the report dictionary. -/
structure ReportLongTerm where
  total_profit : String
  total_equity : String
deriving DecidableEq

/-- The nested dictionary `generate_analysis_report` returns, with its five
sections and their keys. -/
structure AnalysisReport where
  summary : ReportSummary
  returns : ReportReturns
  purchase_breakdown : ReportPurchaseBreakdown
  monthly_breakdown : ReportMonthlyBreakdown
  long_term : ReportLongTerm
deriving DecidableEq

/-- `src/src/services/property_analyzer.py`,
`PropertyAnalyzerService.generate_analysis_report`. -/
def generate_analysis_report (analysis : PropertyAnalysis) : AnalysisReport :=
  { summary :=
      { purchase_price := formatCurrency analysis.purchase_price
        total_cash_needed := formatCurrency analysis.total_cash_needed
        monthly_cash_flow := formatCurrency analysis.monthly_cash_flow
        annual_cash_flow := formatCurrency analysis.annual_cash_flow }
    returns :=
      { cash_on_cash_return := formatRate analysis.cash_on_cash_return
        cap_rate := formatRate analysis.cap_rate
        annual_roi := formatRate analysis.annual_roi }
    purchase_breakdown :=
      { purchase_price := formatCurrency analysis.purchase_price
        down_payment := formatCurrency analysis.down_payment
        loan_amount := formatCurrency analysis.loan_amount
        closing_costs := formatCurrency analysis.closing_costs }
    monthly_breakdown :=
      { rental_income := formatCurrency analysis.monthly_rental_income
        expenses := formatCurrency analysis.monthly_expenses
        mortgage_payment := formatCurrency analysis.monthly_mortgage_payment
        net_cash_flow := formatCurrency analysis.monthly_cash_flow }
    long_term :=
      { total_profit := formatCurrency analysis.total_profit
        total_equity := formatCurrency analysis.total_equity } }

/-- A currency display string: contains the currency symbol, and its last
three characters are a decimal point followed by exactly two digits. -/
def isCurrencyDisplay (s : String) : Prop :=
  '$' ∈ s.data ∧
  ∃ l d1 d2, s.data = l ++ ['.', d1, d2] ∧ d1.isDigit = true ∧ d2.isDigit = true

/-- A rate display string: ends in a percent sign preceded by a decimal point
and exactly two digits. -/
def isRateDisplay (s : String) : Prop :=
  ∃ l d1 d2, s.data = l ++ ['.', d1, d2, '%'] ∧ d1.isDigit = true ∧ d2.isDigit = true

/-! ### Serialization of `PropertyAnalysis` (`to_dict` / `from_dict`)

The `datetime` ISO format is modelled from the stdlib behaviour the dataclass
relies on: `isoformat` renders `YYYY-MM-DDTHH:MM:SS`, appending `.ffffff`
exactly when the microsecond field is nonzero, and `fromisoformat` parses
exactly such strings back (the stdlib parser's wider tolerance is irrelevant
to the round-trip claim, whose inputs are `isoformat` outputs). -/

/-- Numeric value of a decimal digit character. -/
def digitVal (c : Char) : ℕ :=
  c.toNat - 48

/-- A natural number rendered as exactly two decimal digits (mod 100). -/
def pad2 (n : ℕ) : List Char :=
  [Nat.digitChar (n / 10 % 10), Nat.digitChar (n % 10)]

/-- A natural number rendered as exactly four decimal digits (mod 10000). -/
def pad4 (n : ℕ) : List Char :=
  [Nat.digitChar (n / 1000 % 10), Nat.digitChar (n / 100 % 10),
   Nat.digitChar (n / 10 % 10), Nat.digitChar (n % 10)]

/-- A natural number rendered as exactly six decimal digits (mod 1000000). -/
def pad6 (n : ℕ) : List Char :=
  [Nat.digitChar (n / 100000 % 10), Nat.digitChar (n / 10000 % 10),
   Nat.digitChar (n / 1000 % 10), Nat.digitChar (n / 100 % 10),
   Nat.digitChar (n / 10 % 10), Nat.digitChar (n % 10)]

/-- Python `datetime.isoformat()` for a naive datetime. -/
def DateTime.isoformat (d : DateTime) : String :=
  ⟨pad4 d.year ++ '-' :: pad2 d.month ++ '-' :: pad2 d.day ++ 'T' :: pad2 d.hour ++
    ':' :: pad2 d.minute ++ ':' :: pad2 d.second ++
    (if d.microsecond = 0 then [] else '.' :: pad6 d.microsecond)⟩

/-- Consume exactly two decimal digits, returning their value and the rest. -/
def parse2 : List Char → Option (ℕ × List Char)
  | a :: b :: rest =>
    if a.isDigit = true ∧ b.isDigit = true then
      some (digitVal a * 10 + digitVal b, rest)
    else none
  | _ => none

/-- Consume exactly four decimal digits, returning their value and the rest. -/
def parse4 : List Char → Option (ℕ × List Char)
  | a :: b :: c :: d :: rest =>
    if a.isDigit = true ∧ b.isDigit = true ∧ c.isDigit = true ∧ d.isDigit = true then
      some (digitVal a * 1000 + digitVal b * 100 + digitVal c * 10 + digitVal d, rest)
    else none
  | _ => none

/-- Consume exactly six decimal digits, returning their value and the rest. -/
def parse6 : List Char → Option (ℕ × List Char)
  | a :: b :: c :: d :: e :: f :: rest =>
    if a.isDigit = true ∧ b.isDigit = true ∧ c.isDigit = true ∧ d.isDigit = true ∧
        e.isDigit = true ∧ f.isDigit = true then
      some (digitVal a * 100000 + digitVal b * 10000 + digitVal c * 1000 +
        digitVal d * 100 + digitVal e * 10 + digitVal f, rest)
    else none
  | _ => none

/-- Consume one expected separator character. -/
def expect (c : Char) : List Char → Option (List Char)
  | a :: rest => if a = c then some rest else none
  | _ => none

/-- Parse the optional fractional-seconds suffix: nothing (0 microseconds) or
a point followed by exactly six digits ending the string. -/
def parseFrac : List Char → Option ℕ
  | [] => some 0
  | c :: rest =>
    if c = '.' then
      match parse6 rest with
      | some (u, []) => some u
      | _ => none
    else none

/-- Python `datetime.fromisoformat` on the strings `isoformat` produces;
`none` models the `ValueError` raised on anything unparsable.  (The stdlib
parser tolerates more spellings and validates calendar ranges; neither
matters on `isoformat` outputs, the only strings the claims feed it.) -/
def DateTime.fromisoformat (s : String) : Option DateTime :=
  (parse4 s.data).bind fun py =>
  (expect '-' py.2).bind fun r1 =>
  (parse2 r1).bind fun pmo =>
  (expect '-' pmo.2).bind fun r2 =>
  (parse2 r2).bind fun pda =>
  (expect 'T' pda.2).bind fun r3 =>
  (parse2 r3).bind fun phh =>
  (expect ':' phh.2).bind fun r4 =>
  (parse2 r4).bind fun pmi =>
  (expect ':' pmi.2).bind fun r5 =>
  (parse2 r5).bind fun pss =>
  (parseFrac pss.2).map fun u =>
  ⟨py.1, pmo.1, pda.1, phh.1, pmi.1, pss.1, u⟩

/-- The dictionary `PropertyAnalysis.to_dict` produces: every dataclass field,
with both datetimes replaced by their ISO strings (`created_at` only when
present). -/
structure AnalysisDict where
  property_id : String
  analysis_date : String
  purchase_price : ℚ
  down_payment : ℚ
  loan_amount : ℚ
  closing_costs : ℚ
  total_cash_needed : ℚ
  monthly_rental_income : ℚ
  monthly_expenses : ℚ
  monthly_mortgage_payment : ℚ
  monthly_cash_flow : ℚ
  annual_cash_flow : ℚ
  annual_roi : ℚ
  cash_on_cash_return : ℚ
  cap_rate : ℚ
  total_profit : ℚ
  total_equity : ℚ
  irr : Option ℚ
  analysis_id : Option String
  created_at : Option String
deriving DecidableEq

/-- `src/src/models/property.py`, `PropertyAnalysis.to_dict`. -/
def PropertyAnalysis.to_dict (a : PropertyAnalysis) : AnalysisDict :=
  { property_id := a.property_id
    analysis_date := a.analysis_date.isoformat
    purchase_price := a.purchase_price
    down_payment := a.down_payment
    loan_amount := a.loan_amount
    closing_costs := a.closing_costs
    total_cash_needed := a.total_cash_needed
    monthly_rental_income := a.monthly_rental_income
    monthly_expenses := a.monthly_expenses
    monthly_mortgage_payment := a.monthly_mortgage_payment
    monthly_cash_flow := a.monthly_cash_flow
    annual_cash_flow := a.annual_cash_flow
    annual_roi := a.annual_roi
    cash_on_cash_return := a.cash_on_cash_return
    cap_rate := a.cap_rate
    total_profit := a.total_profit
    total_equity := a.total_equity
    irr := a.irr
    analysis_id := a.analysis_id
    created_at := a.created_at.map DateTime.isoformat }

/-- `src/src/models/property.py`, `PropertyAnalysis.from_dict`.  `now` is the
`datetime.now()` fallback the `except` branch substitutes when the
`analysis_date` string fails to parse. -/
def PropertyAnalysis.from_dict (now : DateTime) (d : AnalysisDict) : PropertyAnalysis :=
  { property_id := d.property_id
    analysis_date := (DateTime.fromisoformat d.analysis_date).getD now
    purchase_price := d.purchase_price
    down_payment := d.down_payment
    loan_amount := d.loan_amount
    closing_costs := d.closing_costs
    total_cash_needed := d.total_cash_needed
    monthly_rental_income := d.monthly_rental_income
    monthly_expenses := d.monthly_expenses
    monthly_mortgage_payment := d.monthly_mortgage_payment
    monthly_cash_flow := d.monthly_cash_flow
    annual_cash_flow := d.annual_cash_flow
    annual_roi := d.annual_roi
    cash_on_cash_return := d.cash_on_cash_return
    cap_rate := d.cap_rate
    total_profit := d.total_profit
    total_equity := d.total_equity
    irr := d.irr
    analysis_id := d.analysis_id
    created_at := match d.created_at with
      | none => none
      | some s => DateTime.fromisoformat s }

/-! ### Concrete inputs used by the witness theorems -/

/-- A concrete clock reading. -/
def wDate : DateTime := ⟨2024, 5, 17, 12, 34, 56, 789012⟩

/-- A second, later clock reading (one microsecond apart). -/
def wDate2 : DateTime := ⟨2024, 5, 17, 12, 34, 56, 789013⟩

/-- The spec's end-to-end scenario property. -/
def wProp : Property :=
  { address := "123 Main St", city := "San Francisco", state := "CA",
    zip_code := "94102", purchase_price := 500000,
    property_type := "single_family", bedrooms := 3, bathrooms := 2,
    square_feet := 1500, year_built := 2000 }

/-- The same property with a zero purchase price. -/
def wProp0 : Property :=
  { wProp with purchase_price := 0 }

/-- The spec's end-to-end assumptions, at 0% interest (defaults otherwise:
20% down, 3% closing, 5% vacancy, 10% maintenance, 10% management, 3%
appreciation, 5 holding years, 30-year term). -/
def wAssump : FinancialAssumptions :=
  { interest_rate := 0, monthly_rent := 3000,
    property_tax_annual := 5000, insurance_annual := 1200 }

/-- The same assumptions with a 100% down payment (an all-cash purchase,
making the loan amount zero). -/
def wAssumpAllCash : FinancialAssumptions :=
  { wAssump with down_payment_percentage := 100 }

/-- The same assumptions with no down payment and no closing costs
(making the total cash needed zero while the loan stays positive). -/
def wAssumpNoCash : FinancialAssumptions :=
  { wAssump with down_payment_percentage := 0, closing_costs_percentage := 0 }

/-- The analysis `calculate_property_analysis wDate wProp wAssump` returns. -/
def wOut : PropertyAnalysis :=
  { property_id := String.mk [], analysis_date := wDate, purchase_price := 500000,
    down_payment := 100000, loan_amount := 400000, closing_costs := 15000,
    total_cash_needed := 115000, monthly_rental_income := 2850,
    monthly_expenses := 3350 / 3, monthly_mortgage_payment := 10000 / 9,
    monthly_cash_flow := 5600 / 9, annual_cash_flow := 22400 / 3,
    annual_roi := 448 / 69, cash_on_cash_return := 448 / 69, cap_rate := 104 / 25,
    total_profit := 798684080549 / 4860000, total_equity := 1176144080549 / 4860000 }

/-- The same analysis as observed at the clock reading `wDate2`. -/
def wOutB : PropertyAnalysis :=
  { wOut with analysis_date := wDate2 }

/-- The analysis `calculate_property_analysis wDate wProp wAssumpNoCash`
returns. -/
def wOutNoCash : PropertyAnalysis :=
  { property_id := String.mk [], analysis_date := wDate, purchase_price := 500000,
    down_payment := 0, loan_amount := 500000, closing_costs := 0,
    total_cash_needed := 0, monthly_rental_income := 2850,
    monthly_expenses := 3350 / 3, monthly_mortgage_payment := 12500 / 9,
    monthly_cash_flow := 3100 / 9, annual_cash_flow := 12400 / 3,
    annual_roi := 0, cash_on_cash_return := 0, cap_rate := 104 / 25,
    total_profit := 866361100549 / 4860000, total_equity := 765921100549 / 4860000 }

/-- A concrete analysis record used to witness the serialization round trip;
its `analysis_date` has a nonzero microsecond field and its `created_at` a
zero one, so both branches of the ISO rendering are exercised. -/
def wAnalysisRec : PropertyAnalysis :=
  { property_id := "prop-1", analysis_date := wDate, purchase_price := 500000,
    down_payment := 100000, loan_amount := 400000, closing_costs := 15000,
    total_cash_needed := 115000, monthly_rental_income := 2850,
    monthly_expenses := 3350 / 3, monthly_mortgage_payment := 10000 / 9,
    monthly_cash_flow := 5600 / 9, annual_cash_flow := 22400 / 3,
    annual_roi := 448 / 69, cash_on_cash_return := 448 / 69, cap_rate := 104 / 25,
    total_profit := 798684080549 / 4860000, total_equity := 1176144080549 / 4860000,
    irr := some (1 / 10), analysis_id := some "an-7",
    created_at := some ⟨2023, 12, 31, 23, 59, 59, 0⟩ }

/-- The same property as the end-to-end scenario but with a negative
purchase price (exercises the cap-rate guard's else branch on a completing
input). -/
def wPropNeg : Property :=
  { wProp with purchase_price := -500000 }

/-- The analysis `calculate_property_analysis wDate wPropNeg wAssump`
returns. -/
def wOutNeg : PropertyAnalysis :=
  { property_id := String.mk [], analysis_date := wDate, purchase_price := -500000,
    down_payment := -100000, loan_amount := -400000, closing_costs := -15000,
    total_cash_needed := -115000, monthly_rental_income := 2850,
    monthly_expenses := 3350 / 3, monthly_mortgage_payment := -10000 / 9,
    monthly_cash_flow := 25600 / 9, annual_cash_flow := 102400 / 3,
    annual_roi := 0, cash_on_cash_return := 0, cap_rate := 0,
    total_profit := 212195919451 / 4860000, total_equity := -1176144080549 / 4860000 }

lemma calc_eq_some_iff {now : DateTime} {p : Property} {fa : FinancialAssumptions}
    {a : PropertyAnalysis} :
    calculate_property_analysis now p fa = some a ↔
      ∃ m, calculate_mortgage_payment (analysisLoanAmount p fa) fa.interest_rate
        fa.loan_term_years = some m ∧
        analysisLoanAmount p fa ≠ 0 ∧ a = analysisResult now p fa m := by
  unfold calculate_property_analysis analysisLoanAmount analysisResult
  cases hm : calculate_mortgage_payment
      (p.purchase_price - p.purchase_price * (fa.down_payment_percentage / 100))
      fa.interest_rate fa.loan_term_years with
  | none => simp [hm]
  | some m =>
    simp only [hm, qdiv?]
    by_cases hl : p.purchase_price - p.purchase_price * (fa.down_payment_percentage / 100) = 0
    · simp [hl]
    · simp only [hl, if_neg hl, Option.some.injEq, ite_false]
      constructor
      · intro h
        exact ⟨m, rfl, hl, h.symm⟩
      · rintro ⟨m', hm', hl', rfl⟩
        subst hm'
        rfl

lemma calc_eq_none_of_loan_zero {now : DateTime} {p : Property}
    {fa : FinancialAssumptions} (hl : analysisLoanAmount p fa = 0) :
    calculate_property_analysis now p fa = none := by
  unfold calculate_property_analysis
  unfold analysisLoanAmount at hl
  cases hm : calculate_mortgage_payment
      (p.purchase_price - p.purchase_price * (fa.down_payment_percentage / 100))
      fa.interest_rate fa.loan_term_years with
  | none => simp [hm]
  | some m =>
    simp only [hm]
    simp [qdiv?, hl]

/-! ### Concrete evaluations shared by the witnesses -/

lemma wOut_spec : calculate_property_analysis wDate wProp wAssump = some wOut := by
  simp [calculate_property_analysis, calculate_mortgage_payment, qdiv?,
    wProp, wAssump, wOut, wDate]
  norm_num

lemma wOutB_spec : calculate_property_analysis wDate2 wProp wAssump = some wOutB := by
  simp [calculate_property_analysis, calculate_mortgage_payment, qdiv?,
    wProp, wAssump, wOut, wOutB, wDate2]
  norm_num

lemma wOutNoCash_spec :
    calculate_property_analysis wDate wProp wAssumpNoCash = some wOutNoCash := by
  simp [calculate_property_analysis, calculate_mortgage_payment, qdiv?,
    wProp, wAssump, wAssumpNoCash, wOutNoCash, wDate]
  norm_num

lemma wOutNeg_spec :
    calculate_property_analysis wDate wPropNeg wAssump = some wOutNeg := by
  simp [calculate_property_analysis, calculate_mortgage_payment, qdiv?,
    wProp, wPropNeg, wAssump, wOutNeg, wDate]
  norm_num

/-- The annuity denominator vanishes only at rate 0 (handled separately) and
at rate −2400, where the monthly factor is −1 and the even payment count
makes the power equal 1. -/
lemma mortgage_denom_ne {r : ℚ} {y : ℤ} (hy : 0 < y) (h0 : r ≠ 0) (h24 : r ≠ -2400) :
    (1 + r / 100 / 12) ^ (y * 12) - 1 ≠ 0 := by
  intro h
  have h1 : (1 + r / 100 / 12) ^ (y * 12) = 1 := by
    have := sub_eq_zero.mp h
    linarith [this]
  obtain ⟨n, hn⟩ : ∃ n : ℕ, y * 12 = (n : ℤ) :=
    ⟨(y * 12).toNat, (Int.toNat_of_nonneg (by positivity)).symm⟩
  rw [hn, zpow_natCast] at h1
  have hn0 : n ≠ 0 := by
    rintro rfl
    rw [Nat.cast_zero] at hn
    omega
  have heven : Even n := by
    have he : Even (y * 12) := ⟨y * 6, by ring⟩
    rw [hn] at he
    exact Int.even_coe_nat n |>.mp he
  rcases (pow_eq_one_iff_of_ne_zero hn0).mp h1 with h2 | ⟨h2, -⟩
  · apply h0
    have hmr : r / 100 / 12 = 0 := by linarith
    field_simp at hmr
    exact hmr
  · apply h24
    have hmr : r / 100 / 12 = -2 := by linarith
    field_simp at hmr
    linarith

/-- Claim C1 (amended): for every positive loan amount and term,
`calculate_mortgage_payment` returns `loan_amount / (years × 12)` when the
annual rate is exactly 0, and otherwise — provided the rate is not −2400,
the one nonzero rate at which the annuity denominator
`(1+monthly_rate)^n − 1` vanishes so that the code raises `ZeroDivisionError`
instead — returns the standard amortizing-loan annuity formula
`loan_amount × monthly_rate × (1+monthly_rate)^n / ((1+monthly_rate)^n − 1)`
with `monthly_rate = (annual_rate/100)/12` and `n = years × 12`. -/
theorem mortgage_payment_formula (loan_amount annual_rate : ℚ) (years : ℤ)
    (hL : 0 < loan_amount) (hy : 0 < years) :
    (annual_rate = 0 →
      calculate_mortgage_payment loan_amount annual_rate years =
        some (loan_amount / ((years : ℚ) * 12))) ∧
    (annual_rate ≠ 0 → annual_rate ≠ -2400 →
      calculate_mortgage_payment loan_amount annual_rate years =
        some (loan_amount * (annual_rate / 100 / 12) *
          (1 + annual_rate / 100 / 12) ^ (years * 12) /
          ((1 + annual_rate / 100 / 12) ^ (years * 12) - 1))) := by
  constructor
  · rintro rfl
    have hy12 : ((years : ℚ) * 12) ≠ 0 := by positivity
    simp [calculate_mortgage_payment, qdiv?, hy12]
  · intro h0 h24
    have hden := mortgage_denom_ne hy h0 h24
    simp only [calculate_mortgage_payment, if_neg h0, qdiv?, if_neg hden]
    congr 1
    ring

/-- Claim C1 counterexample: at `annual_rate = −2400` (with positive loan and
term, as the claim's precondition allows any rate) the annuity denominator is
`(−1)^12 − 1 = 0` and the code raises `ZeroDivisionError` — it does not
return the claimed formula value. -/
theorem mortgage_payment_minus2400_raises :
    calculate_mortgage_payment 100 (-2400) 1 = none := by
  simp [calculate_mortgage_payment, qdiv?]
  norm_num

/-- Claim C1 witness: the amended theorem applied at loan 100, rate 0,
term 30. -/
theorem mortgage_payment_formula_witness :
    (0 : ℚ) < 100 ∧ (0 : ℤ) < 30 ∧
      calculate_mortgage_payment 100 0 30 = some (100 / (((30 : ℤ) : ℚ) * 12)) :=
  ⟨by norm_num, by norm_num,
    (mortgage_payment_formula 100 0 30 (by norm_num) (by norm_num)).1 rfl⟩

/-- Claim C2: every analysis `calculate_property_analysis` returns satisfies
`down_payment = purchase_price × down_payment_percentage/100`,
`loan_amount = purchase_price − down_payment`,
`closing_costs = purchase_price × closing_costs_percentage/100` and
`total_cash_needed = down_payment + closing_costs`; in particular, at price
500000 with percentages 20 and 3 the four values are 100000, 400000, 15000
and 115000. -/
theorem analysis_purchase_fields (now : DateTime) (p : Property)
    (fa : FinancialAssumptions) (a : PropertyAnalysis)
    (h : calculate_property_analysis now p fa = some a) :
    (a.down_payment = p.purchase_price * fa.down_payment_percentage / 100 ∧
     a.loan_amount = p.purchase_price - a.down_payment ∧
     a.closing_costs = p.purchase_price * fa.closing_costs_percentage / 100 ∧
     a.total_cash_needed = a.down_payment + a.closing_costs) ∧
    (p.purchase_price = 500000 → fa.down_payment_percentage = 20 →
      fa.closing_costs_percentage = 3 →
      a.down_payment = 100000 ∧ a.loan_amount = 400000 ∧
      a.closing_costs = 15000 ∧ a.total_cash_needed = 115000) := by
  obtain ⟨m, hm, hl, rfl⟩ := calc_eq_some_iff.mp h
  refine ⟨⟨?_, ?_, ?_, ?_⟩, ?_⟩
  · simp [analysisResult]; ring
  · simp [analysisResult]
  · simp [analysisResult]; ring
  · simp [analysisResult]
  · rintro hp hd hc
    simp [analysisResult, hp, hd, hc]
    norm_num

/-- Claim C2 witness: the theorem applied to the end-to-end scenario
(price 500000, 20% down, 3% closing). -/
theorem analysis_purchase_fields_witness :
    calculate_property_analysis wDate wProp wAssump = some wOut ∧
      wOut.down_payment = 100000 ∧ wOut.loan_amount = 400000 ∧
      wOut.closing_costs = 15000 ∧ wOut.total_cash_needed = 115000 :=
  ⟨wOut_spec,
    (analysis_purchase_fields wDate wProp wAssump wOut wOut_spec).2
      (by norm_num [wProp]) (by norm_num [wAssump]) (by norm_num [wAssump])⟩

/-- Claim C3: every analysis returned satisfies the income, expense (with
maintenance and management percentages taken of gross rent), monthly cash
flow and annual cash flow equations of the spec. -/
theorem analysis_cashflow_fields (now : DateTime) (p : Property)
    (fa : FinancialAssumptions) (a : PropertyAnalysis)
    (h : calculate_property_analysis now p fa = some a) :
    a.monthly_rental_income =
      fa.monthly_rent - fa.monthly_rent * fa.vacancy_rate / 100 +
        fa.other_monthly_income ∧
    a.monthly_expenses =
      fa.property_tax_annual / 12 + fa.insurance_annual / 12 + fa.hoa_monthly +
        fa.monthly_rent * fa.maintenance_percentage / 100 +
        fa.monthly_rent * fa.property_management_percentage / 100 +
        fa.utilities_monthly ∧
    a.monthly_cash_flow =
      a.monthly_rental_income - a.monthly_expenses - a.monthly_mortgage_payment ∧
    a.annual_cash_flow = a.monthly_cash_flow * 12 := by
  obtain ⟨m, hm, hl, rfl⟩ := calc_eq_some_iff.mp h
  refine ⟨?_, ?_, ?_, ?_⟩
  · simp [analysisResult]; ring
  · simp [analysisResult]; ring
  · simp [analysisResult]
  · simp [analysisResult]

/-- Claim C3 witness: the theorem applied to the end-to-end scenario (rent
3000, 5% vacancy gives rental income 2850). -/
theorem analysis_cashflow_fields_witness :
    calculate_property_analysis wDate wProp wAssump = some wOut ∧
      wOut.monthly_rental_income = 2850 ∧ wOut.monthly_cash_flow =
        wOut.monthly_rental_income - wOut.monthly_expenses -
          wOut.monthly_mortgage_payment :=
  ⟨wOut_spec, by norm_num [wOut],
    (analysis_cashflow_fields wDate wProp wAssump wOut wOut_spec).2.2.1⟩

/-- Claim C4 counterexample: with purchase price 0 the claim promises a
returned analysis with `cap_rate = 0` and no division-by-zero error, but the
loan amount is then 0 and the unguarded equity division raises, so the
computation returns no analysis at all. -/
theorem analysis_zero_price_raises :
    calculate_property_analysis wDate wProp0 wAssump = none :=
  calc_eq_none_of_loan_zero (by norm_num [analysisLoanAmount, wProp0, wProp])

/-- Claim C4 (amended): the two return-metric divisions themselves are
guarded — every returned analysis has `cash_on_cash_return = 0` when
`total_cash_needed = 0` and `cap_rate = 0` when `purchase_price ≤ 0` — but an
input with `purchase_price = 0` never returns an analysis: its loan amount is
0 and the later unguarded equity division raises. -/
theorem guarded_return_metrics :
    (∀ (now : DateTime) (p : Property) (fa : FinancialAssumptions)
      (a : PropertyAnalysis),
      calculate_property_analysis now p fa = some a →
      a.total_cash_needed = 0 → a.cash_on_cash_return = 0) ∧
    (∀ (now : DateTime) (p : Property) (fa : FinancialAssumptions)
      (a : PropertyAnalysis),
      calculate_property_analysis now p fa = some a →
      a.purchase_price ≤ 0 → a.cap_rate = 0) ∧
    (∀ (now : DateTime) (p : Property) (fa : FinancialAssumptions),
      p.purchase_price = 0 → calculate_property_analysis now p fa = none) := by
  refine ⟨?_, ?_, ?_⟩
  · intro now p fa a h htc
    obtain ⟨m, hm, hl, rfl⟩ := calc_eq_some_iff.mp h
    simp only [analysisResult] at htc ⊢
    rw [htc]
    norm_num
  · intro now p fa a h hpc
    obtain ⟨m, hm, hl, rfl⟩ := calc_eq_some_iff.mp h
    simp only [analysisResult] at hpc ⊢
    rw [if_neg (not_lt.mpr hpc)]
  · intro now p fa hp
    apply calc_eq_none_of_loan_zero
    unfold analysisLoanAmount
    rw [hp]
    ring

/-- Claim C4 witness: the three amended conjuncts at concrete inputs — zero
total cash with positive price (cash-on-cash 0), negative price (cap rate 0),
and zero price (no analysis returned). -/
theorem guarded_return_metrics_witness :
    (calculate_property_analysis wDate wProp wAssumpNoCash = some wOutNoCash ∧
      wOutNoCash.total_cash_needed = 0 ∧ wOutNoCash.cash_on_cash_return = 0) ∧
    (calculate_property_analysis wDate wPropNeg wAssump = some wOutNeg ∧
      wOutNeg.purchase_price ≤ 0 ∧ wOutNeg.cap_rate = 0) ∧
    (wProp0.purchase_price = 0 ∧
      calculate_property_analysis wDate wProp0 wAssumpNoCash = none) :=
  ⟨⟨wOutNoCash_spec, by norm_num [wOutNoCash],
      guarded_return_metrics.1 wDate wProp wAssumpNoCash wOutNoCash wOutNoCash_spec
        (by norm_num [wOutNoCash])⟩,
    ⟨wOutNeg_spec, by norm_num [wOutNeg],
      guarded_return_metrics.2.1 wDate wPropNeg wAssump wOutNeg wOutNeg_spec
        (by norm_num [wOutNeg])⟩,
    ⟨by norm_num [wProp0, wProp],
      guarded_return_metrics.2.2 wDate wProp0 wAssumpNoCash
        (by norm_num [wProp0, wProp])⟩⟩

/-- Claim C5: whenever the loan amount
`purchase_price − purchase_price × down_payment_percentage/100` is 0 (for
example a 100% down payment), `calculate_property_analysis` raises a
division-by-zero error (modelled as `none`): the equity division
`monthly_mortgage × 12 / loan_amount` is not guarded. -/
theorem analysis_zero_loan_raises (now : DateTime) (p : Property)
    (fa : FinancialAssumptions) (hl : analysisLoanAmount p fa = 0) :
    calculate_property_analysis now p fa = none :=
  calc_eq_none_of_loan_zero hl

/-- Claim C5 witness: a 100% down payment on a positive price makes the loan
amount 0 and the analysis raises. -/
theorem analysis_zero_loan_raises_witness :
    analysisLoanAmount wProp wAssumpAllCash = 0 ∧
      calculate_property_analysis wDate wProp wAssumpAllCash = none :=
  ⟨by norm_num [analysisLoanAmount, wProp, wAssumpAllCash, wAssump],
    analysis_zero_loan_raises wDate wProp wAssumpAllCash
      (by norm_num [analysisLoanAmount, wProp, wAssumpAllCash, wAssump])⟩

/-- Claim C6: every returned analysis has `annual_roi` equal to
`cash_on_cash_return` (the code computes the two fields with the identical
guarded formula). -/
theorem annual_roi_eq_cash_on_cash (now : DateTime) (p : Property)
    (fa : FinancialAssumptions) (a : PropertyAnalysis)
    (h : calculate_property_analysis now p fa = some a) :
    a.annual_roi = a.cash_on_cash_return := by
  obtain ⟨m, hm, hl, rfl⟩ := calc_eq_some_iff.mp h
  rfl

/-- Claim C6 witness: the theorem applied to the end-to-end scenario. -/
theorem annual_roi_eq_cash_on_cash_witness :
    calculate_property_analysis wDate wProp wAssump = some wOut ∧
      wOut.annual_roi = wOut.cash_on_cash_return :=
  ⟨wOut_spec, annual_roi_eq_cash_on_cash wDate wProp wAssump wOut wOut_spec⟩

/-- Claim C7: for a nonzero loan amount, every returned analysis satisfies
the long-term equations: `total_equity` is the down payment plus the
simplified principal-paid approximation
`loan − loan × (1 − monthly_payment × 12 / loan)^holding_years` plus the
appreciation gain `price × (1+appreciation/100)^holding_years − price`;
`total_profit = annual_cash_flow × holding_years + total_equity −
total_cash_needed`; and `irr` is left unset. -/
theorem analysis_long_term_fields (now : DateTime) (p : Property)
    (fa : FinancialAssumptions) (a : PropertyAnalysis)
    (hl : analysisLoanAmount p fa ≠ 0)
    (h : calculate_property_analysis now p fa = some a) :
    a.total_equity =
      a.down_payment +
        (a.loan_amount -
          a.loan_amount *
            (1 - a.monthly_mortgage_payment * 12 / a.loan_amount) ^
              fa.holding_period_years) +
        (a.purchase_price * (1 + fa.appreciation_rate / 100) ^ fa.holding_period_years -
          a.purchase_price) ∧
    a.total_profit =
      a.annual_cash_flow * (fa.holding_period_years : ℚ) + a.total_equity -
        a.total_cash_needed ∧
    a.irr = none := by
  obtain ⟨m, hm, hl', rfl⟩ := calc_eq_some_iff.mp h
  refine ⟨?_, ?_, ?_⟩ <;> rfl

/-- Claim C7 witness: the theorem applied to the end-to-end scenario, whose
loan amount 400000 is nonzero. -/
theorem analysis_long_term_fields_witness :
    analysisLoanAmount wProp wAssump ≠ 0 ∧
      calculate_property_analysis wDate wProp wAssump = some wOut ∧
      wOut.irr = none :=
  ⟨by norm_num [analysisLoanAmount, wProp, wAssump], wOut_spec,
    (analysis_long_term_fields wDate wProp wAssump wOut
      (by norm_num [analysisLoanAmount, wProp, wAssump]) wOut_spec).2.2⟩

/-- Claim C8 counterexample: the same property and assumptions analysed at
two clock readings one microsecond apart yield different records — the
`analysis_date` field is the wall-clock time, so the function is not
deterministic in its two data inputs alone. -/
theorem analysis_not_clock_deterministic :
    calculate_property_analysis wDate wProp wAssump ≠
      calculate_property_analysis wDate2 wProp wAssump := by
  rw [wOut_spec, wOutB_spec]
  intro h
  rw [Option.some.injEq] at h
  have hd := congrArg PropertyAnalysis.analysis_date h
  simp [wOut, wOutB, wDate, wDate2] at hd

/-- Claim C8 (amended): the analysis is side-effect-free and deterministic up
to `analysis_date`: for any two clock readings, the results agree on every
field other than `analysis_date` (which records the invocation time). -/
theorem analysis_clock_independent (t1 t2 : DateTime) (p : Property)
    (fa : FinancialAssumptions) :
    (calculate_property_analysis t1 p fa).map eraseAnalysisDate =
      (calculate_property_analysis t2 p fa).map eraseAnalysisDate := by
  simp only [calculate_property_analysis]
  cases calculate_mortgage_payment
      (p.purchase_price - p.purchase_price * (fa.down_payment_percentage / 100))
      fa.interest_rate fa.loan_term_years with
  | none => rfl
  | some m =>
    dsimp only
    cases qdiv? (m * 12)
        (p.purchase_price - p.purchase_price * (fa.down_payment_percentage / 100)) with
    | none => rfl
    | some q => simp [eraseAnalysisDate]

/-! ### Digit and parsing lemmas for the formatter and the serialization -/

lemma digitChar_isDigit {n : ℕ} (h : n < 10) : (Nat.digitChar n).isDigit = true := by
  interval_cases n <;> decide

lemma digitVal_digitChar {n : ℕ} (h : n < 10) : digitVal (Nat.digitChar n) = n := by
  interval_cases n <;> decide

lemma parse2_pad2 (n : ℕ) (h : n < 100) (rest : List Char) :
    parse2 (pad2 n ++ rest) = some (n, rest) := by
  simp only [pad2, List.cons_append, List.nil_append, parse2]
  rw [if_pos ⟨digitChar_isDigit (by omega), digitChar_isDigit (by omega)⟩,
    digitVal_digitChar (by omega), digitVal_digitChar (by omega),
    show n / 10 % 10 * 10 + n % 10 = n from by omega]

lemma parse4_pad4 (n : ℕ) (h : n < 10000) (rest : List Char) :
    parse4 (pad4 n ++ rest) = some (n, rest) := by
  simp only [pad4, List.cons_append, List.nil_append, parse4]
  rw [if_pos ⟨digitChar_isDigit (by omega), digitChar_isDigit (by omega),
      digitChar_isDigit (by omega), digitChar_isDigit (by omega)⟩,
    digitVal_digitChar (by omega), digitVal_digitChar (by omega),
    digitVal_digitChar (by omega), digitVal_digitChar (by omega),
    show n / 1000 % 10 * 1000 + n / 100 % 10 * 100 + n / 10 % 10 * 10 + n % 10 = n
      from by omega]

lemma parse6_pad6 (n : ℕ) (h : n < 1000000) (rest : List Char) :
    parse6 (pad6 n ++ rest) = some (n, rest) := by
  simp only [pad6, List.cons_append, List.nil_append, parse6]
  rw [if_pos ⟨digitChar_isDigit (by omega), digitChar_isDigit (by omega),
      digitChar_isDigit (by omega), digitChar_isDigit (by omega),
      digitChar_isDigit (by omega), digitChar_isDigit (by omega)⟩,
    digitVal_digitChar (by omega), digitVal_digitChar (by omega),
    digitVal_digitChar (by omega), digitVal_digitChar (by omega),
    digitVal_digitChar (by omega), digitVal_digitChar (by omega),
    show n / 100000 % 10 * 100000 + n / 10000 % 10 * 10000 + n / 1000 % 10 * 1000 +
        n / 100 % 10 * 100 + n / 10 % 10 * 10 + n % 10 = n from by omega]

lemma expect_cons (c : Char) (rest : List Char) : expect c (c :: rest) = some rest := by
  simp [expect]

lemma parseFrac_nil : parseFrac [] = some 0 := rfl

lemma parseFrac_frac (n : ℕ) (h : n < 1000000) : parseFrac ('.' :: pad6 n) = some n := by
  simp only [parseFrac, if_pos rfl]
  rw [show pad6 n = pad6 n ++ [] from (List.append_nil _).symm, parse6_pad6 n h]
  simp

/-- Parsing inverts rendering on every datetime satisfying the constructor
invariants. -/
lemma fromisoformat_isoformat {d : DateTime} (h : d.valid) :
    DateTime.fromisoformat d.isoformat = some d := by
  obtain ⟨yr, mo, da, hh, mi, ss, us⟩ := d
  simp only [DateTime.valid] at h
  obtain ⟨h1, h2, h3, h4, h5, h6, h7, h8, h9, h10⟩ := h
  have hy : yr < 10000 := by omega
  have hmo : mo < 100 := by omega
  have hda : da < 100 := by omega
  have hhh : hh < 100 := by omega
  have hmi : mi < 100 := by omega
  have hss : ss < 100 := by omega
  have hus : us < 1000000 := by omega
  simp only [DateTime.isoformat, DateTime.fromisoformat]
  by_cases h0 : us = 0
  · subst h0
    rw [if_pos rfl]
    simp only [List.append_assoc, List.cons_append]
    rw [parse4_pad4 yr hy, Option.some_bind, expect_cons, Option.some_bind,
      parse2_pad2 mo hmo, Option.some_bind, expect_cons, Option.some_bind,
      parse2_pad2 da hda, Option.some_bind, expect_cons, Option.some_bind,
      parse2_pad2 hh hhh, Option.some_bind, expect_cons, Option.some_bind,
      parse2_pad2 mi hmi, Option.some_bind, expect_cons, Option.some_bind,
      parse2_pad2 ss hss, Option.some_bind, parseFrac_nil, Option.map_some']
  · rw [if_neg h0]
    simp only [List.append_assoc, List.cons_append]
    rw [parse4_pad4 yr hy, Option.some_bind, expect_cons, Option.some_bind,
      parse2_pad2 mo hmo, Option.some_bind, expect_cons, Option.some_bind,
      parse2_pad2 da hda, Option.some_bind, expect_cons, Option.some_bind,
      parse2_pad2 hh hhh, Option.some_bind, expect_cons, Option.some_bind,
      parse2_pad2 mi hmi, Option.some_bind, expect_cons, Option.some_bind,
      parse2_pad2 ss hss, Option.some_bind, parseFrac_frac us hus, Option.map_some']

/-- Claim C10: for every analysis whose `analysis_date` is a datetime and
whose `created_at` is absent or a datetime, deserializing the serialized
dictionary reconstructs the original record, whatever `datetime.now()`
fallback value the failed-parse branch would have used. -/
theorem analysis_dict_round_trip (now : DateTime) (a : PropertyAnalysis)
    (h1 : a.analysis_date.valid)
    (h2 : ∀ c, a.created_at = some c → c.valid) :
    PropertyAnalysis.from_dict now a.to_dict = a := by
  obtain ⟨pid, ad, f3, f4, f5, f6, f7, f8, f9, f10, f11, f12, f13, f14, f15, f16,
    f17, irr, aid, ca⟩ := a
  dsimp only at h1 h2
  cases ca with
  | none =>
    simp [PropertyAnalysis.to_dict, PropertyAnalysis.from_dict,
      fromisoformat_isoformat h1]
  | some c =>
    simp [PropertyAnalysis.to_dict, PropertyAnalysis.from_dict,
      fromisoformat_isoformat h1, fromisoformat_isoformat (h2 c rfl)]

/-- Claim C10 witness: the round trip at a concrete record whose
`analysis_date` carries microseconds and whose `created_at` is present
without them. -/
theorem analysis_dict_round_trip_witness :
    wAnalysisRec.analysis_date.valid ∧
      PropertyAnalysis.from_dict wDate2 wAnalysisRec.to_dict = wAnalysisRec :=
  ⟨by decide,
    analysis_dict_round_trip wDate2 wAnalysisRec (by decide)
      (by
        intro c hc
        simp [wAnalysisRec] at hc
        subst hc
        decide)⟩

lemma formatCurrency_shape (q : ℚ) : isCurrencyDisplay (formatCurrency q) := by
  simp only [formatCurrency, isCurrencyDisplay]
  refine ⟨?_,
    '$' :: ((if q < 0 then ['-'] else []) ++
      groupThousands (natDigits ((halfEven (q * 100)).natAbs / 100))),
    Nat.digitChar ((halfEven (q * 100)).natAbs % 100 / 10),
    Nat.digitChar ((halfEven (q * 100)).natAbs % 100 % 10), ?_, ?_, ?_⟩
  · exact List.mem_cons_self _ _
  · show ('$' :: _) = _
    simp [twoFrac, List.cons_append, List.append_assoc]
  · exact digitChar_isDigit (by omega)
  · exact digitChar_isDigit (by omega)

lemma formatRate_shape (q : ℚ) : isRateDisplay (formatRate q) := by
  simp only [formatRate, isRateDisplay]
  refine ⟨(if q < 0 then ['-'] else []) ++
      natDigits ((halfEven (q * 100)).natAbs / 100),
    Nat.digitChar ((halfEven (q * 100)).natAbs % 100 / 10),
    Nat.digitChar ((halfEven (q * 100)).natAbs % 100 % 10), ?_, ?_, ?_⟩
  · show (_ ++ _) ++ _ = _
    simp [twoFrac, List.cons_append, List.append_assoc]
  · exact digitChar_isDigit (by omega)
  · exact digitChar_isDigit (by omega)

/-- Claim C9: in the report `generate_analysis_report` renders, every
currency field contains the currency symbol and ends in a decimal point
followed by exactly two digits, and every rate field ends in a percent sign
preceded by a decimal point and exactly two digits. -/
theorem report_display_format (a : PropertyAnalysis) :
    (isCurrencyDisplay (generate_analysis_report a).summary.purchase_price ∧
     isCurrencyDisplay (generate_analysis_report a).summary.total_cash_needed ∧
     isCurrencyDisplay (generate_analysis_report a).summary.monthly_cash_flow ∧
     isCurrencyDisplay (generate_analysis_report a).summary.annual_cash_flow ∧
     isCurrencyDisplay (generate_analysis_report a).purchase_breakdown.purchase_price ∧
     isCurrencyDisplay (generate_analysis_report a).purchase_breakdown.down_payment ∧
     isCurrencyDisplay (generate_analysis_report a).purchase_breakdown.loan_amount ∧
     isCurrencyDisplay (generate_analysis_report a).purchase_breakdown.closing_costs ∧
     isCurrencyDisplay (generate_analysis_report a).monthly_breakdown.rental_income ∧
     isCurrencyDisplay (generate_analysis_report a).monthly_breakdown.expenses ∧
     isCurrencyDisplay (generate_analysis_report a).monthly_breakdown.mortgage_payment ∧
     isCurrencyDisplay (generate_analysis_report a).monthly_breakdown.net_cash_flow ∧
     isCurrencyDisplay (generate_analysis_report a).long_term.total_profit ∧
     isCurrencyDisplay (generate_analysis_report a).long_term.total_equity) ∧
    (isRateDisplay (generate_analysis_report a).returns.cash_on_cash_return ∧
     isRateDisplay (generate_analysis_report a).returns.cap_rate ∧
     isRateDisplay (generate_analysis_report a).returns.annual_roi) :=
  ⟨⟨formatCurrency_shape _, formatCurrency_shape _, formatCurrency_shape _,
    formatCurrency_shape _, formatCurrency_shape _, formatCurrency_shape _,
    formatCurrency_shape _, formatCurrency_shape _, formatCurrency_shape _,
    formatCurrency_shape _, formatCurrency_shape _, formatCurrency_shape _,
    formatCurrency_shape _, formatCurrency_shape _⟩,
   formatRate_shape _, formatRate_shape _, formatRate_shape _⟩
